import Mathlib

/-!
Shallow embedding of the RoborockService device-communication layer
(src/src/roborockService.ts) of the matterbridge-roborock-vacuum-plugin
repository, together with theorems settling the behavioural claims about
`startClean`, the connection loops, `stopService`, the status-poll timers
and `setSelectedAreas`.

Maps (`Map<string, T>` in the source) are embedded as association lists with
JavaScript `Map.get` / `Map.set` semantics; device ids (`duid`) are strings;
numeric ids are `Int`.  Asynchronous methods that can reject are embedded as
effect records carrying an `Option String` for a thrown error, the log events
emitted, and the outgoing calls performed on the message processor or the IoT
API, so a claim about "logs X / invokes Y / throws Z" is a statement about
those fields.
-/

namespace Roborock

/-- A `ServiceArea.Area` as `RoborockService` consumes it: only the `areaId`
field is ever read by `startClean` (src/src/roborockService.ts lines 239-240). -/
structure Area where
  areaId : Int
  deriving Repr, DecidableEq

/-- One value of the room-index map: a room id together with its map id, as
constructed in the repository tests (`new RoomIndexMap(new Map([[1, { roomId: 1,
mapId: 0 }], ...]))`). -/
structure RoomIndexEntry where
  roomId : Int
  mapId : Int
  deriving Repr, DecidableEq

/-- Modelled from the spec: the class `RoomIndexMap` (src/model/roomIndexMap.ts)
is imported by roborockService.ts but its implementation is not among the
analyzed sources.  From its construction in the repository tests it wraps a map
from area id to a room record, and `getRoomId` looks up the room id for an area
id, `undefined` when the area id has no entry. -/
structure RoomIndexMap where
  indexMap : List (Int × RoomIndexEntry)
  deriving Repr, DecidableEq

/-- Lookup of the room id of an area id, `none` when the area id is unmapped. -/
def RoomIndexMap.getRoomId (m : RoomIndexMap) (areaId : Int) : Option Int :=
  (m.indexMap.lookup areaId).map (fun e => e.roomId)

/-- The clean-mode record exchanged with the message processor
(`CleanModeSetting` of src/behaviors, reduced to its data fields). -/
structure CleanModeSetting where
  suctionPower : Int
  waterFlow : Int
  distance_off : Int
  mopRoute : Option Int
  deriving Repr, DecidableEq

/-- The per-device message processor.  Its implementation lives in
roborockCommunication outside the analyzed service file, so it is abstract
here: the only datum the service layer inspects is the value its
`getCleanModeData` call resolves to (`undefined` when the call yields no
data). -/
structure MessageProcessor where
  cleanModeData : Option CleanModeSetting
  deriving Repr, DecidableEq

/-- A recurring timer created by `setInterval`: its handle and its period in
milliseconds. -/
structure TimerRec where
  id : Nat
  periodMs : Nat
  deriving Repr, DecidableEq

/-- JavaScript `Map.set`: bind `k` to `v`, replacing any previous binding. -/
def setKey {α : Type} (m : List (String × α)) (k : String) (v : α) :
    List (String × α) :=
  (k, v) :: m.filter (fun p => !(p.1 == k))

/-- The mutable fields of `RoborockService` that the analyzed operations read
and write (src/src/roborockService.ts lines 41-64), together with the set of
live `setInterval` timers (`activeTimers` with a fresh-handle counter
`nextTimerId`) so cancellation can be observed. -/
structure ServiceState where
  messageClient : Option Nat := none
  iotApiPresent : Bool := false
  refreshInterval : Nat := 10
  supportedAreas : List (String × List Area) := []
  supportedRoutines : List (String × List Area) := []
  selectedAreas : List (String × List Int) := []
  supportedAreaIndexMaps : List (String × RoomIndexMap) := []
  messageProcessorMap : List (String × MessageProcessor) := []
  localClientMap : List (String × String) := []
  ipMap : List (String × String) := []
  mqttAlwaysOnDevices : List (String × Bool) := []
  requestDeviceStatusInterval : Option Nat := none
  activeTimers : List TimerRec := []
  nextTimerId : Nat := 0
  deriving Repr, DecidableEq

/-- Log events emitted through the AnsiLogger. -/
inductive LogEvent where
  | debugLog (msg : String)
  | noticeLog (msg : String)
  | warnLog (msg : String)
  | errorLog (msg : String)
  deriving Repr, DecidableEq

/-- Outgoing calls the service performs on its collaborators. -/
inductive ServiceCall where
  | procStartClean (duid : String)
  | procStartRoomClean (duid : String) (rooms : List Int) (repeats : Nat)
  | iotStartScene (sceneId : Int)
  | procPauseClean (duid : String)
  | procResumeClean (duid : String)
  | procGotoDock (duid : String)
  | procFindMyRobot (duid : String)
  | procGetCustomMessage (duid : String)
  | procSendCustomMessage (duid : String)
  | procGetCleanModeData (duid : String)
  | clientRouterDisconnect
  | localClientDisconnect (duid : String)
  | clearIntervalCall (timerId : Nat)
  deriving Repr, DecidableEq

/-- Result of one service command: the error it throws (rejects with), if any,
the log events it emits, and the collaborator calls it performs. -/
structure CmdEffect where
  threw : Option String
  logs : List LogEvent
  calls : List ServiceCall
  deriving Repr, DecidableEq

/-- `RoborockService.getMessageProcessor` (lines 154-160): the processor of the
device, logging an error when none is registered. -/
def getMessageProcessor (st : ServiceState) (duid : String) :
    Option MessageProcessor × List LogEvent :=
  match st.messageProcessorMap.lookup duid with
  | none => (none, [LogEvent.errorLog "MessageApi is not initialized."])
  | some p => (some p, [])

/-- The branch `RoborockService.startClean` (lines 224-268) takes, as a
function of the supported rooms, supported routines and stored selection of
the device. -/
inductive StartCleanAction where
  | globalClean : StartCleanAction
  | roomClean (rooms : List Int) (repeats : Nat) : StartCleanAction
  | startScene (sceneId : Int) : StartCleanAction
  | warnMultipleRoutines : StartCleanAction
  | warnSomethingWrong : StartCleanAction
  deriving Repr, DecidableEq

/-- Branch selection of `startClean`, transcribed from lines 230-267: with no
routines, a length comparison of the selection against the supported rooms
decides global versus room clean; with routines, the selection is split into
room matches and routine matches and dispatched on the number of routine
matches. -/
def startCleanDecision (supportedRooms supportedRoutinesList : List Area)
    (selected : List Int) : StartCleanAction :=
  if supportedRoutinesList.length = 0 then
    if selected.length = supportedRooms.length ∨ selected.length = 0 ∨
        supportedRooms.length = 0 then
      .globalClean
    else
      .roomClean selected 1
  else
    let rooms := selected.filter
      (fun slt => supportedRooms.any (fun a => a.areaId == slt))
    let rt := selected.filter
      (fun slt => supportedRoutinesList.any (fun a => a.areaId == slt))
    if rt.length > 1 then .warnMultipleRoutines
    else if rt.length = 1 then .startScene rt.headI
    else if rooms.length = supportedRooms.length ∨ rooms.length = 0 ∨
        supportedRooms.length = 0 then .globalClean
    else if rooms.length > 0 then .roomClean rooms 1
    else .warnSomethingWrong

/-- `startCleanDecision` applied to the stored per-device state, with the
`?? []` defaults of lines 225-227. -/
def startCleanAction (st : ServiceState) (duid : String) : StartCleanAction :=
  startCleanDecision ((st.supportedAreas.lookup duid).getD [])
    ((st.supportedRoutines.lookup duid).getD [])
    ((st.selectedAreas.lookup duid).getD [])

/-- The routine matches of the stored selection (line 240): the selected ids
that equal the area id of some supported routine. -/
def selectedRoutineMatches (st : ServiceState) (duid : String) : List Int :=
  ((st.selectedAreas.lookup duid).getD []).filter
    (fun slt => (((st.supportedRoutines.lookup duid).getD [])).any
      (fun a => a.areaId == slt))

/-- `RoborockService.startClean` (lines 224-268) as an effect: the logs it
emits and the calls it performs, following the branch of
`startCleanAction`.  The processor calls happen through optional chaining on
`getMessageProcessor`, so they are dropped (with an error log) when no
processor is registered, and `iotApi?.startScene` is dropped when the IoT API
is absent. -/
def startClean (st : ServiceState) (duid : String) : CmdEffect :=
  let beginLog := LogEvent.debugLog "RoborockService - begin cleaning"
  match startCleanAction st duid with
  | .globalClean =>
      let r := getMessageProcessor st duid
      { threw := none
        logs := [beginLog, LogEvent.debugLog "RoborockService - startGlobalClean"] ++ r.2
        calls := match r.1 with
          | some _ => [ServiceCall.procStartClean duid]
          | none => [] }
  | .roomClean rooms repeats =>
      let r := getMessageProcessor st duid
      { threw := none
        logs := [beginLog, LogEvent.debugLog "RoborockService - startRoomClean"] ++ r.2
        calls := match r.1 with
          | some _ => [ServiceCall.procStartRoomClean duid rooms repeats]
          | none => [] }
  | .startScene sceneId =>
      { threw := none
        logs := [beginLog, LogEvent.debugLog "RoborockService - startScene"]
        calls := if st.iotApiPresent then [ServiceCall.iotStartScene sceneId] else [] }
  | .warnMultipleRoutines =>
      { threw := none
        logs := [beginLog,
          LogEvent.warnLog "RoborockService - Multiple routines selected, which is not supported."]
        calls := [] }
  | .warnSomethingWrong =>
      { threw := none
        logs := [beginLog, LogEvent.warnLog "RoborockService - something goes wrong."]
        calls := [] }

/-- `RoborockService.pauseClean` (lines 270-273). -/
def pauseClean (st : ServiceState) (duid : String) : CmdEffect :=
  let r := getMessageProcessor st duid
  { threw := none
    logs := [LogEvent.debugLog "RoborockService - pauseClean"] ++ r.2
    calls := match r.1 with
      | some _ => [ServiceCall.procPauseClean duid]
      | none => [] }

/-- `RoborockService.stopAndGoHome` (lines 275-278). -/
def stopAndGoHome (st : ServiceState) (duid : String) : CmdEffect :=
  let r := getMessageProcessor st duid
  { threw := none
    logs := [LogEvent.debugLog "RoborockService - stopAndGoHome"] ++ r.2
    calls := match r.1 with
      | some _ => [ServiceCall.procGotoDock duid]
      | none => [] }

/-- `RoborockService.resumeClean` (lines 280-283). -/
def resumeClean (st : ServiceState) (duid : String) : CmdEffect :=
  let r := getMessageProcessor st duid
  { threw := none
    logs := [LogEvent.debugLog "RoborockService - resumeClean"] ++ r.2
    calls := match r.1 with
      | some _ => [ServiceCall.procResumeClean duid]
      | none => [] }

/-- `RoborockService.playSoundToLocate` (lines 285-288). -/
def playSoundToLocate (st : ServiceState) (duid : String) : CmdEffect :=
  let r := getMessageProcessor st duid
  { threw := none
    logs := [LogEvent.debugLog "RoborockService - findMe"] ++ r.2
    calls := match r.1 with
      | some _ => [ServiceCall.procFindMyRobot duid]
      | none => [] }

/-- `RoborockService.customGet` (lines 290-293): resolves to the processor
result, `undefined` when no processor is registered. -/
def customGet (st : ServiceState) (duid : String) : CmdEffect :=
  let r := getMessageProcessor st duid
  { threw := none
    logs := [LogEvent.debugLog "RoborockService - customSend-message"] ++ r.2
    calls := match r.1 with
      | some _ => [ServiceCall.procGetCustomMessage duid]
      | none => [] }

/-- `RoborockService.customSend` (lines 295-297). -/
def customSend (st : ServiceState) (duid : String) : CmdEffect :=
  let r := getMessageProcessor st duid
  { threw := none
    logs := r.2
    calls := match r.1 with
      | some _ => [ServiceCall.procSendCustomMessage duid]
      | none => [] }

/-- `RoborockService.getCleanModeData` (lines 196-203): when the optional chain
yields no data, the method throws `Failed to retrieve clean mode data`. -/
def getCleanModeData (st : ServiceState) (duid : String) : CmdEffect :=
  let r := getMessageProcessor st duid
  let data := r.1.bind (fun p => p.cleanModeData)
  { threw := match data with
      | none => some "Failed to retrieve clean mode data"
      | some _ => none
    logs := [LogEvent.noticeLog "RoborockService - getCleanModeData"] ++ r.2
    calls := match r.1 with
      | some _ => [ServiceCall.procGetCleanModeData duid]
      | none => [] }

/-- `RoborockService.setSelectedAreas` (lines 162-170): each given area id is
translated through the room-index map of the device, and the ids that
translate to `undefined` are filtered out before storing. -/
def setSelectedAreas (st : ServiceState) (duid : String)
    (selectedList : List Int) : ServiceState :=
  let roomIds : List (Option Int) := selectedList.map
    (fun areaId => (st.supportedAreaIndexMaps.lookup duid).bind
      (fun m => m.getRoomId areaId))
  { st with selectedAreas := setKey st.selectedAreas duid (roomIds.filterMap id) }

/-- `RoborockService.activateDeviceNotify` (lines 343-361): creates a fresh
`setInterval` timer with period `refreshInterval * 1000` ms and stores its
handle in `requestDeviceStatusInterval`, overwriting whatever handle was
stored before without cancelling it. -/
def activateDeviceNotify (st : ServiceState) (_duid : String) : ServiceState :=
  { st with
    requestDeviceStatusInterval := some st.nextTimerId
    activeTimers := { id := st.nextTimerId, periodMs := st.refreshInterval * 1000 } :: st.activeTimers
    nextTimerId := st.nextTimerId + 1 }

/-- `RoborockService.activateDeviceNotifyOverMQTT` (lines 363-381): same as
`activateDeviceNotify` but with period `refreshInterval * 500` ms. -/
def activateDeviceNotifyOverMQTT (st : ServiceState) (_duid : String) : ServiceState :=
  { st with
    requestDeviceStatusInterval := some st.nextTimerId
    activeTimers := { id := st.nextTimerId, periodMs := st.refreshInterval * 500 } :: st.activeTimers
    nextTimerId := st.nextTimerId + 1 }

/-- `RoborockService.stopService` (lines 310-337): disconnects and clears the
message client, disconnects and removes every local client, empties the
processor map, and clears the single stored status-poll timer (if any) via
`clearInterval`.  Returns the new state together with the disconnect and
cancel calls performed. -/
def stopService (st : ServiceState) : ServiceState × List ServiceCall :=
  let clientCalls := match st.messageClient with
    | some _ => [ServiceCall.clientRouterDisconnect]
    | none => []
  let localCalls := st.localClientMap.map
    (fun p => ServiceCall.localClientDisconnect p.1)
  let timerCalls := match st.requestDeviceStatusInterval with
    | some t => [ServiceCall.clearIntervalCall t]
    | none => []
  let remaining := match st.requestDeviceStatusInterval with
    | some t => st.activeTimers.filter (fun tr => !(tr.id == t))
    | none => st.activeTimers
  ({ st with
      messageClient := none
      localClientMap := []
      messageProcessorMap := []
      requestDeviceStatusInterval := none
      activeTimers := remaining },
   clientCalls ++ localCalls ++ timerCalls)

/-- `RoborockService.isRequestSecure` (lines 673-675). -/
def isRequestSecure (st : ServiceState) (duid : String) : Bool :=
  (st.mqttAlwaysOnDevices.lookup duid).getD false

/-- The bounded wait loop of `initializeMessageClientForLocal` (lines 640-645):
`conn k` is the value the k-th `isConnected()` poll returns (one `sleep(500)`
separates consecutive polls).  `localConnectAux conn fuel k` returns the index
of the poll at which the loop stops: the first poll at or after `k` that
observes `true`, or `k + fuel` when all of them observe `false`. -/
def localConnectAux (conn : Nat → Bool) : Nat → Nat → Nat
  | 0, k => k
  | fuel + 1, k => if conn k then k else localConnectAux conn fuel (k + 1)

/-- Number of `sleep(500)` iterations of the local connection-wait loop, which
starts with `count = 0` and allows at most 20 sleeps (`count < 20`). -/
def initializeLocalConnectPolls (conn : Nat → Bool) : Nat :=
  localConnectAux conn 20 0

/-- The `isConnected()` check right after the wait loop (line 647): within one
synchronous turn it observes the same value as the poll that ended the loop. -/
def localConnectSucceeded (conn : Nat → Bool) : Bool :=
  conn (initializeLocalConnectPolls conn)

/-- Outcome of `initializeMessageClientForLocal`: the boolean result, the new
service state, whether a `getNetworkInfo` request was issued, whether a local
client connection was attempted, and the error thrown inside the try block
(caught at lines 655-658), if any. -/
structure InitLocalOutcome where
  success : Bool
  state : ServiceState
  networkInfoRequested : Bool
  localClientConnectAttempted : Bool
  thrownError : Option String
  deriving Repr, DecidableEq

/-- `RoborockService.initializeMessageClientForLocal` (lines 575-661).
`proc` is the freshly constructed message processor, `networkIp` the ip the
`getNetworkInfo` request would yield (`none` for a missing ip), `conn` the
connectivity trace of the local client.  Devices with protocol version `B01`
are marked cloud-always and no local client is created; otherwise the local
ip is resolved (cache first), the local client registered and connected, and
failure of the bounded wait loop throws, which is caught and turns into a
`false` result. -/
def initializeMessageClientForLocal (st : ServiceState) (duid : String)
    (pv : String) (proc : MessageProcessor) (networkIp : Option String)
    (conn : Nat → Bool) : InitLocalOutcome :=
  match st.messageClient with
  | none =>
    { success := false, state := st, networkInfoRequested := false
      localClientConnectAttempted := false, thrownError := none }
  | some _ =>
    let st1 := { st with messageProcessorMap := setKey st.messageProcessorMap duid proc }
    if pv = "B01" then
      { success := true
        state := { st1 with mqttAlwaysOnDevices := setKey st1.mqttAlwaysOnDevices duid true }
        networkInfoRequested := false
        localClientConnectAttempted := false
        thrownError := none }
    else
      let st2 := { st1 with mqttAlwaysOnDevices := setKey st1.mqttAlwaysOnDevices duid false }
      let cachedIp := st2.ipMap.lookup duid
      let requested := cachedIp.isNone
      let localIp : Option String := match cachedIp with
        | some ip => some ip
        | none => networkIp
      match localIp with
      | none =>
        { success := false, state := st2, networkInfoRequested := requested
          localClientConnectAttempted := false, thrownError := none }
      | some ip =>
        if localConnectSucceeded conn then
          { success := true
            state := { st2 with
              ipMap := setKey st2.ipMap duid ip
              localClientMap := setKey st2.localClientMap duid ip }
            networkInfoRequested := requested
            localClientConnectAttempted := true
            thrownError := none }
        else
          { success := false, state := st2, networkInfoRequested := requested
            localClientConnectAttempted := true
            thrownError := some "Local client did not connect after 10 attempts, something is wrong" }

/-- The unbounded wait loop of `initializeMessageClient` (lines 568-570):
`while (!this.messageClient.isConnected()) await this.sleep(500)`.  `conn k`
is the value the k-th `isConnected()` poll returns.  `CloudWait conn k r`
holds when the loop, entered just before poll `k`, terminates right after
poll `r` observes `true`; a trace on which no poll ever observes `true` admits
no derivation, matching the absence of any retry bound in the source. -/
inductive CloudWait (conn : Nat → Bool) : Nat → Nat → Prop where
  | done : ∀ k, conn k = true → CloudWait conn k k
  | step : ∀ k r, conn k = false → CloudWait conn (k + 1) r → CloudWait conn k r

/-! ## Helper lemmas -/

/-- `Map.set` followed by `Map.get` at the same key yields the value set. -/
theorem lookup_setKey_self {α : Type} (m : List (String × α)) (k : String) (v : α) :
    (setKey m k v).lookup k = some v := by
  simp [setKey, List.lookup]

/-- With no routines the decision reduces to the length comparison of
lines 231-237. -/
theorem startCleanDecision_no_routines (supportedRooms : List Area)
    (selected : List Int) :
    startCleanDecision supportedRooms [] selected =
      (if selected.length = supportedRooms.length ∨ selected.length = 0 ∨
          supportedRooms.length = 0
        then StartCleanAction.globalClean
        else StartCleanAction.roomClean selected 1) := by
  simp [startCleanDecision]

/-- With a processor registered, a global-clean decision issues exactly the
processor call `startClean`. -/
theorem startClean_calls_global (st : ServiceState) (duid : String)
    (hp : (st.messageProcessorMap.lookup duid).isSome = true)
    (ha : startCleanAction st duid = StartCleanAction.globalClean) :
    (startClean st duid).calls = [ServiceCall.procStartClean duid] := by
  obtain ⟨p, hp2⟩ := Option.isSome_iff_exists.mp hp
  simp [startClean, ha, getMessageProcessor, hp2]

/-- With a processor registered, a room-clean decision issues exactly the
processor call `startRoomClean`. -/
theorem startClean_calls_room (st : ServiceState) (duid : String)
    (rooms : List Int) (n : Nat)
    (hp : (st.messageProcessorMap.lookup duid).isSome = true)
    (ha : startCleanAction st duid = StartCleanAction.roomClean rooms n) :
    (startClean st duid).calls = [ServiceCall.procStartRoomClean duid rooms n] := by
  obtain ⟨p, hp2⟩ := Option.isSome_iff_exists.mp hp
  simp [startClean, ha, getMessageProcessor, hp2]

/-! ## C1: the no-routine global/room rule -/

/-- The selected ids and the supported rooms denote the same set: every
selected id is the area id of some supported room and every supported room's
area id occurs among the selected ids. -/
def selectedSetEqualsSupportedSet (selected : List Int)
    (supportedRooms : List Area) : Prop :=
  (∀ s ∈ selected, ∃ a ∈ supportedRooms, a.areaId = s) ∧
  (∀ a ∈ supportedRooms, a.areaId ∈ selected)

instance (selected : List Int) (supportedRooms : List Area) :
    Decidable (selectedSetEqualsSupportedSet selected supportedRooms) := by
  unfold selectedSetEqualsSupportedSet
  infer_instance

/-- Claim C1 as stated, with "the selected set equals the full supported-room
set" read as set equality: with no routines and a processor registered,
`startClean` issues a global clean exactly when the selection is empty, or
equals the supported-room set, or there are no supported rooms, and otherwise
a room clean with the selected list and pass count 1. -/
def startCleanSetRuleClaim : Prop :=
  ∀ (st : ServiceState) (duid : String),
    (st.supportedRoutines.lookup duid).getD [] = [] →
    (st.messageProcessorMap.lookup duid).isSome = true →
    (((st.selectedAreas.lookup duid).getD [] = [] ∨
        selectedSetEqualsSupportedSet ((st.selectedAreas.lookup duid).getD [])
          ((st.supportedAreas.lookup duid).getD []) ∨
        (st.supportedAreas.lookup duid).getD [] = []) →
      (startClean st duid).calls = [ServiceCall.procStartClean duid]) ∧
    (¬ ((st.selectedAreas.lookup duid).getD [] = [] ∨
        selectedSetEqualsSupportedSet ((st.selectedAreas.lookup duid).getD [])
          ((st.supportedAreas.lookup duid).getD []) ∨
        (st.supportedAreas.lookup duid).getD [] = []) →
      (startClean st duid).calls =
        [ServiceCall.procStartRoomClean duid
          ((st.selectedAreas.lookup duid).getD []) 1])

/-- Supported rooms 1 and 2, selection `[3, 4]`: the selection has the same
LENGTH as the supported-room list but is a different set. -/
def stLenEqNotSetEq : ServiceState :=
  { supportedAreas := [("d", [⟨1⟩, ⟨2⟩])]
    selectedAreas := [("d", [3, 4])]
    messageProcessorMap := [("d", ⟨none⟩)] }

/-- C1 fails as stated: on a device with supported rooms `{1, 2}` and stored
selection `[3, 4]` (equal length, different set) the code compares lengths
(line 231) and issues a global clean where the claim demands a room clean. -/
theorem startClean_set_rule_claim_false : ¬ startCleanSetRuleClaim := by
  intro h
  have h2 := (h stLenEqNotSetEq "d" (by decide) (by decide)).2 (by decide)
  exact absurd h2 (by decide)

/-- C1 (amended): with no routines configured and a processor registered,
`startClean` issues exactly the global processor clean when the selected list
is empty, or its length equals the number of supported rooms, or there are no
supported rooms; otherwise exactly the room-scoped processor clean with the
selected list and pass count 1. -/
theorem startClean_no_routines_length_rule (st : ServiceState) (duid : String)
    (hr : (st.supportedRoutines.lookup duid).getD [] = [])
    (hp : (st.messageProcessorMap.lookup duid).isSome = true) :
    ((((st.selectedAreas.lookup duid).getD []).length =
          ((st.supportedAreas.lookup duid).getD []).length ∨
        (st.selectedAreas.lookup duid).getD [] = [] ∨
        (st.supportedAreas.lookup duid).getD [] = []) →
      (startClean st duid).calls = [ServiceCall.procStartClean duid]) ∧
    (¬ (((st.selectedAreas.lookup duid).getD []).length =
          ((st.supportedAreas.lookup duid).getD []).length ∨
        (st.selectedAreas.lookup duid).getD [] = [] ∨
        (st.supportedAreas.lookup duid).getD [] = []) →
      (startClean st duid).calls =
        [ServiceCall.procStartRoomClean duid
          ((st.selectedAreas.lookup duid).getD []) 1]) := by
  constructor
  · intro hcond
    apply startClean_calls_global st duid hp
    unfold startCleanAction
    rw [hr, startCleanDecision_no_routines, if_pos]
    rcases hcond with h | h | h
    · exact Or.inl h
    · exact Or.inr (Or.inl (by simp [h]))
    · exact Or.inr (Or.inr (by simp [h]))
  · intro hcond
    apply startClean_calls_room st duid _ _ hp
    unfold startCleanAction
    rw [hr, startCleanDecision_no_routines, if_neg]
    intro hc
    apply hcond
    rcases hc with h | h | h
    · exact Or.inl h
    · exact Or.inr (Or.inl (List.length_eq_zero.mp h))
    · exact Or.inr (Or.inr (List.length_eq_zero.mp h))

/-- Supported rooms 1 and 2 and selection `[1]`, the example of the spec. -/
def stRoomExample : ServiceState :=
  { supportedAreas := [("d", [⟨1⟩, ⟨2⟩])]
    selectedAreas := [("d", [1])]
    messageProcessorMap := [("d", ⟨none⟩)] }

/-- Witness for C1 (amended) at the spec's example: supported rooms `{1, 2}`,
selected `[1]`, room clean invoked with `[1]` and pass count 1. -/
theorem startClean_no_routines_length_rule_witness :
    ((stRoomExample.supportedRoutines.lookup "d").getD [] = [] ∧
      (stRoomExample.messageProcessorMap.lookup "d").isSome = true) ∧
    (startClean stRoomExample "d").calls =
      [ServiceCall.procStartRoomClean "d" [1] 1] :=
  ⟨⟨by decide, by decide⟩,
    (startClean_no_routines_length_rule stRoomExample "d" (by decide)
      (by decide)).2 (by decide)⟩

/-! ## C2 and C3: routine selections -/

/-- With a non-empty routine list the decision reduces to the routine/room
split of lines 239-266. -/
theorem startCleanDecision_routines (supportedRooms supportedRoutinesList : List Area)
    (selected : List Int) (hne : supportedRoutinesList ≠ []) :
    startCleanDecision supportedRooms supportedRoutinesList selected =
      (let rooms := selected.filter
        (fun slt => supportedRooms.any (fun a => a.areaId == slt))
      let rt := selected.filter
        (fun slt => supportedRoutinesList.any (fun a => a.areaId == slt))
      if rt.length > 1 then StartCleanAction.warnMultipleRoutines
      else if rt.length = 1 then StartCleanAction.startScene rt.headI
      else if rooms.length = supportedRooms.length ∨ rooms.length = 0 ∨
          supportedRooms.length = 0 then StartCleanAction.globalClean
      else if rooms.length > 0 then StartCleanAction.roomClean rooms 1
      else StartCleanAction.warnSomethingWrong) := by
  unfold startCleanDecision
  rw [if_neg (by simpa [List.length_eq_zero] using hne)]

/-- C2: for a device with a non-empty routine set, when exactly one selected
area matches a supported routine, `startClean` issues exactly the scene
invocation `iotApi.startScene` with that id — which is the area id of a
supported routine — and no `startClean` or `startRoomClean` call reaches the
message processor. -/
theorem startClean_single_routine_starts_scene (st : ServiceState) (duid : String)
    (hr : (st.supportedRoutines.lookup duid).getD [] ≠ [])
    (hio : st.iotApiPresent = true)
    (h1 : (selectedRoutineMatches st duid).length = 1) :
    (startClean st duid).calls =
      [ServiceCall.iotStartScene (selectedRoutineMatches st duid).headI] ∧
    (∃ a ∈ (st.supportedRoutines.lookup duid).getD [],
      a.areaId = (selectedRoutineMatches st duid).headI) ∧
    (∀ d, ServiceCall.procStartClean d ∉ (startClean st duid).calls) ∧
    (∀ d rooms n, ServiceCall.procStartRoomClean d rooms n ∉ (startClean st duid).calls) := by
  have ha : startCleanAction st duid =
      StartCleanAction.startScene (selectedRoutineMatches st duid).headI := by
    unfold startCleanAction
    rw [startCleanDecision_routines _ _ _ hr]
    simp only [selectedRoutineMatches] at h1
    simp [h1, selectedRoutineMatches]
  have hcalls : (startClean st duid).calls =
      [ServiceCall.iotStartScene (selectedRoutineMatches st duid).headI] := by
    simp [startClean, ha, hio]
  obtain ⟨x, hx⟩ := List.length_eq_one.mp h1
  have hxm : x ∈ selectedRoutineMatches st duid := by simp [hx]
  have hxp := List.of_mem_filter hxm
  obtain ⟨a, ha2, ha3⟩ := List.any_eq_true.mp hxp
  refine ⟨hcalls, ⟨a, ha2, ?_⟩, ?_, ?_⟩
  · rw [hx]
    simpa using ha3
  · intro d
    simp [hcalls]
  · intro d rooms n
    simp [hcalls]

/-- One supported routine (id 99), rooms 1 and 2, and routine 99 selected:
the example of the spec. -/
def stSceneExample : ServiceState :=
  { supportedAreas := [("d", [⟨1⟩, ⟨2⟩])]
    supportedRoutines := [("d", [⟨99⟩])]
    selectedAreas := [("d", [99])]
    messageProcessorMap := [("d", ⟨none⟩)]
    iotApiPresent := true }

/-- Witness for C2: one supported routine with id 99, selected, scene
invocation by 99 and no clean call. -/
theorem startClean_single_routine_starts_scene_witness :
    ((stSceneExample.supportedRoutines.lookup "d").getD [] ≠ [] ∧
      stSceneExample.iotApiPresent = true ∧
      (selectedRoutineMatches stSceneExample "d").length = 1) ∧
    (startClean stSceneExample "d").calls =
      [ServiceCall.iotStartScene (selectedRoutineMatches stSceneExample "d").headI] :=
  ⟨⟨by decide, by decide, by decide⟩,
    (startClean_single_routine_starts_scene stSceneExample "d" (by decide)
      (by decide) (by decide)).1⟩

/-- C3: when more than one selected area matches a supported routine,
`startClean` emits the multiple-routines warning and performs no call at all:
no scene invocation, no global clean and no room clean. -/
theorem startClean_multiple_routines_warns_only (st : ServiceState) (duid : String)
    (hmulti : 1 < (selectedRoutineMatches st duid).length) :
    (startClean st duid).calls = [] ∧
    LogEvent.warnLog "RoborockService - Multiple routines selected, which is not supported."
      ∈ (startClean st duid).logs := by
  have hr : (st.supportedRoutines.lookup duid).getD [] ≠ [] := by
    intro h
    rw [selectedRoutineMatches, h] at hmulti
    simp at hmulti
  have ha : startCleanAction st duid = StartCleanAction.warnMultipleRoutines := by
    unfold startCleanAction
    rw [startCleanDecision_routines _ _ _ hr]
    simp only [selectedRoutineMatches] at hmulti
    simp [hmulti]
  simp [startClean, ha]

/-- Two supported routines (99 and 100), both selected: the example of the
spec. -/
def stMultiRoutineExample : ServiceState :=
  { supportedAreas := [("d", [⟨1⟩, ⟨2⟩])]
    supportedRoutines := [("d", [⟨99⟩, ⟨100⟩])]
    selectedAreas := [("d", [99, 100])]
    messageProcessorMap := [("d", ⟨none⟩)]
    iotApiPresent := true }

/-- Witness for C3: routines 99 and 100 both selected, a warning and no
action. -/
theorem startClean_multiple_routines_warns_only_witness :
    1 < (selectedRoutineMatches stMultiRoutineExample "d").length ∧
    (startClean stMultiRoutineExample "d").calls = [] ∧
    LogEvent.warnLog "RoborockService - Multiple routines selected, which is not supported."
      ∈ (startClean stMultiRoutineExample "d").logs :=
  ⟨by decide,
    (startClean_multiple_routines_warns_only stMultiRoutineExample "d" (by decide)).1,
    (startClean_multiple_routines_warns_only stMultiRoutineExample "d" (by decide)).2⟩

/-! ## C4: the bounded local connection-wait loop -/

/-- The wait loop performs at most `fuel` sleeps past its start index. -/
theorem localConnectAux_le (conn : Nat → Bool) :
    ∀ fuel k, localConnectAux conn fuel k ≤ k + fuel := by
  intro fuel
  induction fuel with
  | zero => intro k; simp [localConnectAux]
  | succ f ih =>
    intro k
    unfold localConnectAux
    split
    · omega
    · have := ih (k + 1)
      omega

/-- When every poll in range observes `false`, the loop exhausts its fuel. -/
theorem localConnectAux_of_never (conn : Nat → Bool) :
    ∀ fuel k, (∀ j, j ≤ k + fuel → conn j = false) →
      localConnectAux conn fuel k = k + fuel := by
  intro fuel
  induction fuel with
  | zero => intro k _; simp [localConnectAux]
  | succ f ih =>
    intro k h
    unfold localConnectAux
    rw [h k (by omega), if_neg (by simp)]
    have := ih (k + 1) (fun j hj => h j (by omega))
    omega

/-- C4: the local connection-wait loop performs at most 20 polling iterations
of 500 ms each (at most 10 s of sleeps); when the client never reports
connected within those polls the loop stops after exactly 20 iterations, the
post-loop connectivity check fails, and `initializeMessageClientForLocal`
surfaces the failure for the local path of the device: the try block throws
the connection-failure error (caught and logged) and the method resolves
`false`. -/
theorem local_connect_bounded_retries (conn : Nat → Bool) :
    initializeLocalConnectPolls conn ≤ 20 ∧
    500 * initializeLocalConnectPolls conn ≤ 10000 ∧
    ((∀ k, k ≤ 20 → conn k = false) →
      initializeLocalConnectPolls conn = 20 ∧
      localConnectSucceeded conn = false ∧
      (∀ (st : ServiceState) (duid pv : String) (proc : MessageProcessor)
          (ip : String), pv ≠ "B01" →
        (initializeMessageClientForLocal st duid pv proc (some ip) conn).success = false ∧
        (st.messageClient.isSome = true →
          (initializeMessageClientForLocal st duid pv proc (some ip) conn).thrownError =
            some "Local client did not connect after 10 attempts, something is wrong"))) := by
  have hle : initializeLocalConnectPolls conn ≤ 20 := by
    have := localConnectAux_le conn 20 0
    simpa [initializeLocalConnectPolls] using this
  refine ⟨hle, by omega, ?_⟩
  intro h20
  have hpolls : initializeLocalConnectPolls conn = 20 := by
    have := localConnectAux_of_never conn 20 0 (fun j hj => h20 j (by omega))
    simpa [initializeLocalConnectPolls] using this
  have hsucc : localConnectSucceeded conn = false := by
    rw [localConnectSucceeded, hpolls]
    exact h20 20 (by omega)
  refine ⟨hpolls, hsucc, ?_⟩
  intro st duid pv proc ip hpv
  cases hmc : st.messageClient with
  | none =>
    constructor
    · simp [initializeMessageClientForLocal, hmc]
    · intro hsome
      simp at hsome
  | some c =>
    cases hip : st.ipMap.lookup duid with
    | none =>
      constructor
      · simp [initializeMessageClientForLocal, hmc, hpv, hip, hsucc]
      · intro _
        simp [initializeMessageClientForLocal, hmc, hpv, hip, hsucc]
    | some ip0 =>
      constructor
      · simp [initializeMessageClientForLocal, hmc, hpv, hip, hsucc]
      · intro _
        simp [initializeMessageClientForLocal, hmc, hpv, hip, hsucc]

/-- Witness for C4 on the never-connected trace. -/
theorem local_connect_bounded_retries_witness :
    (∀ k, k ≤ 20 → (fun _ : Nat => false) k = false) ∧
    initializeLocalConnectPolls (fun _ => false) = 20 ∧
    localConnectSucceeded (fun _ => false) = false ∧
    (initializeMessageClientForLocal { messageClient := some 0 } "d" "1.0"
      ⟨none⟩ (some "ip") (fun _ => false)).success = false :=
  ⟨fun _ _ => rfl,
    ((local_connect_bounded_retries (fun _ => false)).2.2 (fun _ _ => rfl)).1,
    ((local_connect_bounded_retries (fun _ => false)).2.2 (fun _ _ => rfl)).2.1,
    (((local_connect_bounded_retries (fun _ => false)).2.2 (fun _ _ => rfl)).2.2
      { messageClient := some 0 } "d" "1.0" ⟨none⟩ "ip" (by decide)).1⟩

/-! ## C5: operations on a device with no message processor -/

/-- The service state right after construction: no processors, no clients, no
stored areas. -/
def stEmpty : ServiceState := {}

/-- Claim C5 as stated: on a device with no registered message processor,
every command operation (startClean, pauseClean, resumeClean, stopAndGoHome,
playSoundToLocate, customGet, customSend, getCleanModeData) logs the
missing-initialization error and resolves without throwing. -/
def noProcessorAllResolveClaim : Prop :=
  ∀ (st : ServiceState) (duid : String),
    st.messageProcessorMap.lookup duid = none →
    ∀ eff ∈ [startClean st duid, pauseClean st duid, resumeClean st duid,
        stopAndGoHome st duid, playSoundToLocate st duid, customGet st duid,
        customSend st duid, getCleanModeData st duid],
      eff.threw = none ∧
      LogEvent.errorLog "MessageApi is not initialized." ∈ eff.logs

/-- C5 fails as stated: with no processor registered, `getCleanModeData` does
log the missing-initialization error but then throws
`Failed to retrieve clean mode data` (line 200) instead of resolving. -/
theorem getCleanModeData_throws_without_processor : ¬ noProcessorAllResolveClaim := by
  intro h
  have h8 := h stEmpty "d" rfl (getCleanModeData stEmpty "d") (by simp)
  exact absurd h8.1 (by decide)

/-- C5 (amended): on a device with no registered message processor,
pauseClean, resumeClean, stopAndGoHome, playSoundToLocate, customGet and
customSend log the missing-initialization error and resolve with no call
performed; startClean resolves with no processor call and logs the error
whenever its decision is a global or room clean (its scene and warning paths
do not consult the processor); getCleanModeData logs the error but throws
`Failed to retrieve clean mode data` instead of resolving. -/
theorem commands_without_processor (st : ServiceState) (duid : String)
    (h : st.messageProcessorMap.lookup duid = none) :
    (∀ eff ∈ [pauseClean st duid, resumeClean st duid, stopAndGoHome st duid,
        playSoundToLocate st duid, customGet st duid, customSend st duid],
      eff.threw = none ∧
      LogEvent.errorLog "MessageApi is not initialized." ∈ eff.logs ∧
      eff.calls = []) ∧
    ((startClean st duid).threw = none ∧
      (∀ d, ServiceCall.procStartClean d ∉ (startClean st duid).calls) ∧
      (∀ d rooms n,
        ServiceCall.procStartRoomClean d rooms n ∉ (startClean st duid).calls) ∧
      ((startCleanAction st duid = StartCleanAction.globalClean ∨
          ∃ rooms n, startCleanAction st duid = StartCleanAction.roomClean rooms n) →
        LogEvent.errorLog "MessageApi is not initialized." ∈ (startClean st duid).logs)) ∧
    ((getCleanModeData st duid).threw = some "Failed to retrieve clean mode data" ∧
      LogEvent.errorLog "MessageApi is not initialized." ∈ (getCleanModeData st duid).logs) := by
  have hgm : getMessageProcessor st duid =
      (none, [LogEvent.errorLog "MessageApi is not initialized."]) := by
    simp [getMessageProcessor, h]
  refine ⟨?_, ?_, ?_⟩
  · intro eff heff
    simp only [List.mem_cons, List.mem_singleton, List.not_mem_nil, or_false] at heff
    rcases heff with rfl | rfl | rfl | rfl | rfl | rfl <;>
      simp [pauseClean, resumeClean, stopAndGoHome, playSoundToLocate,
        customGet, customSend, hgm]
  · cases hact : startCleanAction st duid with
    | globalClean =>
      refine ⟨by simp [startClean, hact, hgm], ?_, ?_, ?_⟩
      · intro d; simp [startClean, hact, hgm]
      · intro d rooms n; simp [startClean, hact, hgm]
      · intro _; simp [startClean, hact, hgm]
    | roomClean rooms n =>
      refine ⟨by simp [startClean, hact, hgm], ?_, ?_, ?_⟩
      · intro d; simp [startClean, hact, hgm]
      · intro d rooms2 n2; simp [startClean, hact, hgm]
      · intro _; simp [startClean, hact, hgm]
    | startScene sceneId =>
      refine ⟨by simp [startClean, hact], ?_, ?_, ?_⟩
      · intro d
        cases hio : st.iotApiPresent <;> simp [startClean, hact, hio]
      · intro d rooms n
        cases hio : st.iotApiPresent <;> simp [startClean, hact, hio]
      · intro habs
        rcases habs with h2 | ⟨rooms, n, h2⟩ <;> exact absurd h2 (by simp)
    | warnMultipleRoutines =>
      refine ⟨by simp [startClean, hact], ?_, ?_, ?_⟩
      · intro d; simp [startClean, hact]
      · intro d rooms n; simp [startClean, hact]
      · intro habs
        rcases habs with h2 | ⟨rooms, n, h2⟩ <;> exact absurd h2 (by simp)
    | warnSomethingWrong =>
      refine ⟨by simp [startClean, hact], ?_, ?_, ?_⟩
      · intro d; simp [startClean, hact]
      · intro d rooms n; simp [startClean, hact]
      · intro habs
        rcases habs with h2 | ⟨rooms, n, h2⟩ <;> exact absurd h2 (by simp)
  · constructor
    · simp [getCleanModeData, hgm]
    · simp [getCleanModeData, hgm]

/-- Witness for C5 (amended) on the empty state. -/
theorem commands_without_processor_witness :
    stEmpty.messageProcessorMap.lookup "d" = none ∧
    (pauseClean stEmpty "d").threw = none ∧
    (getCleanModeData stEmpty "d").threw = some "Failed to retrieve clean mode data" :=
  ⟨rfl,
    ((commands_without_processor stEmpty "d" rfl).1 (pauseClean stEmpty "d") (by simp)).1,
    (commands_without_processor stEmpty "d" rfl).2.2.1⟩

/-! ## C6: cloud-only devices (protocol version B01) -/

/-- C6: for a device whose protocol version is the cloud-only marker `B01`,
`initializeMessageClientForLocal` resolves `true`, requests no network info,
attempts no local connection, leaves the local-client map untouched, marks the
device cloud-always, and afterwards `isRequestSecure` reports `true` for the
device. -/
theorem b01_device_cloud_always (st : ServiceState) (duid : String)
    (proc : MessageProcessor) (networkIp : Option String) (conn : Nat → Bool)
    (hmc : st.messageClient.isSome = true) :
    (initializeMessageClientForLocal st duid "B01" proc networkIp conn).success = true ∧
    (initializeMessageClientForLocal st duid "B01" proc networkIp conn).networkInfoRequested = false ∧
    (initializeMessageClientForLocal st duid "B01" proc networkIp conn).localClientConnectAttempted = false ∧
    (initializeMessageClientForLocal st duid "B01" proc networkIp conn).state.localClientMap =
      st.localClientMap ∧
    (initializeMessageClientForLocal st duid "B01" proc networkIp conn).state.mqttAlwaysOnDevices.lookup duid =
      some true ∧
    isRequestSecure (initializeMessageClientForLocal st duid "B01" proc networkIp conn).state duid =
      true := by
  obtain ⟨c, hc⟩ := Option.isSome_iff_exists.mp hmc
  simp [initializeMessageClientForLocal, hc, isRequestSecure, lookup_setKey_self]

/-- A state with only the message client registered. -/
def stClientOnly : ServiceState := { messageClient := some 0 }

/-- Witness for C6 at a concrete state. -/
theorem b01_device_cloud_always_witness :
    stClientOnly.messageClient.isSome = true ∧
    (initializeMessageClientForLocal stClientOnly "d" "B01" ⟨none⟩ none
      (fun _ => false)).success = true ∧
    isRequestSecure (initializeMessageClientForLocal stClientOnly "d" "B01" ⟨none⟩ none
      (fun _ => false)).state "d" = true :=
  ⟨rfl,
    (b01_device_cloud_always stClientOnly "d" ⟨none⟩ none (fun _ => false) rfl).1,
    (b01_device_cloud_always stClientOnly "d" ⟨none⟩ none (fun _ => false) rfl).2.2.2.2.2⟩

/-! ## C7: the unbounded cloud connection-wait loop -/

/-- The loop terminates exactly at the first poll that observes `true`. -/
theorem cloudWait_spec (conn : Nat → Bool) :
    ∀ k r, CloudWait conn k r →
      conn r = true ∧ ∀ j, k ≤ j → j < r → conn j = false := by
  intro k r h
  induction h with
  | done k hk =>
    exact ⟨hk, fun j hj1 hj2 => absurd (lt_of_le_of_lt hj1 hj2) (lt_irrefl _)⟩
  | step k r hk _ ih =>
    refine ⟨ih.1, fun j hj1 hj2 => ?_⟩
    rcases eq_or_lt_of_le hj1 with rfl | h2
    · exact hk
    · exact ih.2 j h2 hj2

/-- A run of the loop on a trace whose first `true` poll is poll `m`. -/
theorem cloudWait_build (conn : Nat → Bool) (m : Nat) (hm : conn m = true)
    (hf : ∀ j, j < m → conn j = false) :
    ∀ d i, i + d = m → CloudWait conn i m := by
  intro d
  induction d with
  | zero =>
    intro i hi
    have h2 : i = m := by omega
    subst h2
    exact CloudWait.done i hm
  | succ d ih =>
    intro i hi
    exact CloudWait.step i m (hf i (by omega)) (ih (i + 1) (by omega))

/-- C7: the cloud connection loop of `initializeMessageClient` returns only
once a poll observes the connected signal — every earlier poll observed
`false` — and it has no upper bound on iterations: for every `n` there is a
connectivity trace on which the loop runs for more than `n` polls before
returning. -/
theorem cloud_connect_unbounded_poll :
    (∀ (conn : Nat → Bool) (r : Nat), CloudWait conn 0 r →
      conn r = true ∧ ∀ j, j < r → conn j = false) ∧
    (∀ n : Nat, ∃ (conn : Nat → Bool) (r : Nat), CloudWait conn 0 r ∧ n < r) := by
  constructor
  · intro conn r h
    have h2 := cloudWait_spec conn 0 r h
    exact ⟨h2.1, fun j hj => h2.2 j (Nat.zero_le j) hj⟩
  · intro n
    refine ⟨fun k => decide (k = n + 1), n + 1, ?_, Nat.lt_succ_self n⟩
    exact cloudWait_build _ (n + 1) (by simp)
      (fun j hj => by simp; omega) (n + 1) 0 (by omega)

/-- Witness for C7: on the trace that connects at poll 2 the loop returns at
poll 2, having observed `false` at polls 0 and 1. -/
theorem cloud_connect_unbounded_poll_witness :
    (fun k : Nat => decide (k = 2)) 2 = true ∧
    ∀ j, j < 2 → (fun k : Nat => decide (k = 2)) j = false :=
  cloud_connect_unbounded_poll.1 (fun k => decide (k = 2)) 2
    (CloudWait.step 0 2 rfl (CloudWait.step 1 2 rfl (CloudWait.done 2 rfl)))

/-! ## C8 and C9: stopService and the status-poll timers -/

/-- Claim C8 as stated: after stopService the message client is disconnected
and cleared, every registered local client received a disconnect, the
local-client and processor maps are empty, the stored timer handle is
cleared, and no status-poll timer remains active (no further ticks fire). -/
def stopServiceCancelsAllClaim : Prop :=
  ∀ st : ServiceState,
    (stopService st).1.messageClient = none ∧
    (stopService st).1.localClientMap = [] ∧
    (stopService st).1.messageProcessorMap = [] ∧
    (stopService st).1.requestDeviceStatusInterval = none ∧
    (∀ p ∈ st.localClientMap,
      ServiceCall.localClientDisconnect p.1 ∈ (stopService st).2) ∧
    (st.messageClient.isSome = true →
      ServiceCall.clientRouterDisconnect ∈ (stopService st).2) ∧
    (stopService st).1.activeTimers = []

/-- The state after activating the status poll twice (first the local poll for
d1, then the MQTT poll for d2) starting from the fresh state: two timers are
live and only the second handle is stored. -/
def stTwoTimers : ServiceState :=
  activateDeviceNotifyOverMQTT (activateDeviceNotify stEmpty "d1") "d2"

/-- C8 fails as stated: after two activations, `stopService` clears only the
stored (most recent) timer; the timer of the first activation survives, so
status-poll ticks can still fire after shutdown. -/
theorem stopService_leftover_timer_counterexample : ¬ stopServiceCancelsAllClaim := by
  intro h
  have h7 := (h stTwoTimers).2.2.2.2.2.2
  exact absurd h7 (by decide)

/-- C8 (amended): after stopService the message client is disconnected and
cleared, disconnect was invoked on every registered local client, the
local-client and processor maps are empty, and the stored status-poll timer
handle is cleared and that timer cancelled via clearInterval — so no further
ticks fire from the timer that was stored; timers of earlier activations that
were overwritten in the handle field are not cancelled. -/
theorem stopService_postcondition (st : ServiceState) :
    (stopService st).1.messageClient = none ∧
    (stopService st).1.localClientMap = [] ∧
    (stopService st).1.messageProcessorMap = [] ∧
    (stopService st).1.requestDeviceStatusInterval = none ∧
    (∀ p ∈ st.localClientMap,
      ServiceCall.localClientDisconnect p.1 ∈ (stopService st).2) ∧
    (st.messageClient.isSome = true →
      ServiceCall.clientRouterDisconnect ∈ (stopService st).2) ∧
    (∀ t, st.requestDeviceStatusInterval = some t →
      ServiceCall.clearIntervalCall t ∈ (stopService st).2 ∧
      ∀ tr ∈ (stopService st).1.activeTimers, tr.id ≠ t) := by
  cases hmc : st.messageClient with
  | none =>
    cases hti : st.requestDeviceStatusInterval with
    | none =>
      refine ⟨rfl, rfl, rfl, rfl, ?_, ?_, ?_⟩
      · intro p hp
        simp only [stopService, hmc, hti, List.nil_append, List.append_nil]
        exact List.mem_map_of_mem _ hp
      · intro hsome; simp at hsome
      · intro t ht; simp at ht
    | some t0 =>
      refine ⟨rfl, rfl, rfl, rfl, ?_, ?_, ?_⟩
      · intro p hp
        simp only [stopService, hmc, hti, List.nil_append]
        exact List.mem_append_left _ (List.mem_map_of_mem _ hp)
      · intro hsome; simp at hsome
      · intro t ht
        injection ht with ht2
        subst ht2
        constructor
        · simp only [stopService, hmc, hti, List.nil_append]
          exact List.mem_append_right _ (List.mem_singleton_self _)
        · intro tr htr
          simp only [stopService, hti] at htr
          have h3 := (List.mem_filter.mp htr).2
          simpa using h3
  | some c =>
    cases hti : st.requestDeviceStatusInterval with
    | none =>
      refine ⟨rfl, rfl, rfl, rfl, ?_, ?_, ?_⟩
      · intro p hp
        simp only [stopService, hmc, hti, List.append_nil, List.singleton_append]
        exact List.mem_cons_of_mem _ (List.mem_map_of_mem _ hp)
      · intro _
        simp only [stopService, hmc, hti, List.append_nil, List.singleton_append]
        exact List.mem_cons_self _ _
      · intro t ht; simp at ht
    | some t0 =>
      refine ⟨rfl, rfl, rfl, rfl, ?_, ?_, ?_⟩
      · intro p hp
        simp only [stopService, hmc, hti, List.singleton_append]
        exact List.mem_append_left _ (List.mem_cons_of_mem _ (List.mem_map_of_mem _ hp))
      · intro _
        simp only [stopService, hmc, hti, List.singleton_append]
        exact List.mem_append_left _ (List.mem_cons_self _ _)
      · intro t ht
        injection ht with ht2
        subst ht2
        constructor
        · simp only [stopService, hmc, hti, List.singleton_append]
          exact List.mem_append_right _ (List.mem_singleton_self _)
        · intro tr htr
          simp only [stopService, hti] at htr
          have h3 := (List.mem_filter.mp htr).2
          simpa using h3

/-- A populated state: message client, one local client, one stored and live
timer with handle 5. -/
def stFullTeardown : ServiceState :=
  { messageClient := some 0
    localClientMap := [("d", "ip")]
    messageProcessorMap := [("d", ⟨none⟩)]
    requestDeviceStatusInterval := some 5
    activeTimers := [{ id := 5, periodMs := 1000 }]
    nextTimerId := 6 }

/-- Witness for C8 (amended) at a populated state. -/
theorem stopService_postcondition_witness :
    stFullTeardown.requestDeviceStatusInterval = some 5 ∧
    ServiceCall.clearIntervalCall 5 ∈ (stopService stFullTeardown).2 ∧
    (∀ tr ∈ (stopService stFullTeardown).1.activeTimers, tr.id ≠ 5) ∧
    ServiceCall.localClientDisconnect "d" ∈ (stopService stFullTeardown).2 :=
  ⟨rfl,
    ((stopService_postcondition stFullTeardown).2.2.2.2.2.2 5 rfl).1,
    ((stopService_postcondition stFullTeardown).2.2.2.2.2.2 5 rfl).2,
    (stopService_postcondition stFullTeardown).2.2.2.2.1 ("d", "ip") (by decide)⟩

/-- C9: each activation stores a fresh timer handle in the single field
`requestDeviceStatusInterval` without cancelling the previously stored timer;
after a second activation the first timer is still live, and after
`stopService` only the most recently created timer has been cancelled while
the earlier timer keeps running (ticking against the torn-down processors). -/
theorem timer_overwrite_leaks_previous (st : ServiceState) (d1 d2 : String) :
    (activateDeviceNotify st d1).requestDeviceStatusInterval = some st.nextTimerId ∧
    (activateDeviceNotifyOverMQTT (activateDeviceNotify st d1) d2).requestDeviceStatusInterval =
      some (st.nextTimerId + 1) ∧
    (∃ tr ∈ (activateDeviceNotifyOverMQTT (activateDeviceNotify st d1) d2).activeTimers,
      tr.id = st.nextTimerId) ∧
    (∃ tr ∈ (stopService (activateDeviceNotifyOverMQTT (activateDeviceNotify st d1) d2)).1.activeTimers,
      tr.id = st.nextTimerId) ∧
    (∀ tr ∈ (stopService (activateDeviceNotifyOverMQTT (activateDeviceNotify st d1) d2)).1.activeTimers,
      tr.id ≠ st.nextTimerId + 1) := by
  refine ⟨rfl, rfl, ?_, ?_, ?_⟩
  · refine ⟨{ id := st.nextTimerId, periodMs := st.refreshInterval * 1000 }, ?_, rfl⟩
    simp only [activateDeviceNotify, activateDeviceNotifyOverMQTT]
    exact List.mem_cons_of_mem _ (List.mem_cons_self _ _)
  · refine ⟨{ id := st.nextTimerId, periodMs := st.refreshInterval * 1000 }, ?_, rfl⟩
    simp only [stopService, activateDeviceNotify, activateDeviceNotifyOverMQTT]
    refine List.mem_filter.mpr ⟨List.mem_cons_of_mem _ (List.mem_cons_self _ _), ?_⟩
    simp
  · intro tr htr
    simp only [stopService, activateDeviceNotify, activateDeviceNotifyOverMQTT] at htr
    have h3 := (List.mem_filter.mp htr).2
    simpa using h3

/-- Witness for C9 applied to the fresh state. -/
theorem timer_overwrite_leaks_previous_witness :
    (∃ tr ∈ (stopService (activateDeviceNotifyOverMQTT (activateDeviceNotify stEmpty "d1") "d2")).1.activeTimers,
      tr.id = stEmpty.nextTimerId) ∧
    (∀ tr ∈ (stopService (activateDeviceNotifyOverMQTT (activateDeviceNotify stEmpty "d1") "d2")).1.activeTimers,
      tr.id ≠ stEmpty.nextTimerId + 1) :=
  ⟨(timer_overwrite_leaks_previous stEmpty "d1" "d2").2.2.2.1,
    (timer_overwrite_leaks_previous stEmpty "d1" "d2").2.2.2.2⟩

/-! ## C10: setSelectedAreas translation -/

/-- C10: `setSelectedAreas` stores, not the given area ids, but their
translation through the room-index map of the device, dropping every id with
no mapping; when no index map is set for the device the stored selection is
empty, and a subsequent `startClean` takes the global-clean branch whatever
areas were passed. -/
theorem setSelectedAreas_translates_and_drops (st : ServiceState) (duid : String)
    (areas : List Int) :
    (setSelectedAreas st duid areas).selectedAreas.lookup duid =
      some (areas.filterMap (fun a => (st.supportedAreaIndexMaps.lookup duid).bind
        (fun m => m.getRoomId a))) ∧
    (st.supportedAreaIndexMaps.lookup duid = none →
      (setSelectedAreas st duid areas).selectedAreas.lookup duid = some [] ∧
      startCleanAction (setSelectedAreas st duid areas) duid =
        StartCleanAction.globalClean) := by
  have h1 : (setSelectedAreas st duid areas).selectedAreas.lookup duid =
      some (areas.filterMap (fun a => (st.supportedAreaIndexMaps.lookup duid).bind
        (fun m => m.getRoomId a))) := by
    simp [setSelectedAreas, lookup_setKey_self, List.filterMap_map, Function.comp]
  refine ⟨h1, ?_⟩
  intro hnone
  have h2 : (setSelectedAreas st duid areas).selectedAreas.lookup duid = some [] := by
    rw [h1, hnone]
    simp
  refine ⟨h2, ?_⟩
  unfold startCleanAction
  rw [h2]
  have h3 : (setSelectedAreas st duid areas).supportedRoutines = st.supportedRoutines := rfl
  have h4 : (setSelectedAreas st duid areas).supportedAreas = st.supportedAreas := rfl
  rw [h3, h4]
  by_cases hrt : ((st.supportedRoutines.lookup duid).getD []).length = 0
  · simp [startCleanDecision, hrt]
  · simp [startCleanDecision, hrt]

/-- Witness for C10: three areas passed with no index map set, empty stored
selection and a global clean. -/
theorem setSelectedAreas_translates_and_drops_witness :
    stEmpty.supportedAreaIndexMaps.lookup "d" = none ∧
    (setSelectedAreas stEmpty "d" [1, 5, 2]).selectedAreas.lookup "d" = some [] ∧
    startCleanAction (setSelectedAreas stEmpty "d" [1, 5, 2]) "d" =
      StartCleanAction.globalClean :=
  ⟨rfl,
    ((setSelectedAreas_translates_and_drops stEmpty "d" [1, 5, 2]).2 rfl).1,
    ((setSelectedAreas_translates_and_drops stEmpty "d" [1, 5, 2]).2 rfl).2⟩

end Roborock
